import Mathlib

/-!
Verification development for the feather.js core: the RawKey signing path
(src/key/RawKey.ts) and the tri-format message codec, embodied by the two
message variants the spec singles out: MsgStoreCode
(src/core/jax/msgs/MsgStoreCode.ts) and MsgUpdateClient (bundled in the
same source set as RawKey.ts).

Modelling conventions:
- JS byte buffers (Buffer / Uint8Array) are `List Nat`.
- The external cryptographic libraries (jscrypto SHA256, keccak256,
  secp256k1) are not code of this repository; they are modelled as a
  bundle of function parameters (`CryptoPrims`).  The secp256k1 compact
  signature is 64 bytes; that documented library contract is carried as a
  proof field of the bundle.
- The external protobuf codec (terra.proto generated encode/decode) is
  likewise a parameter bundle (`ProtoLib`); claims about pack/unpack are
  stated for every such bundle, under the library's documented
  decode-after-encode contract where the claim needs it.  A small concrete
  instance (`toyLib`) witnesses satisfiability.
- TS `string` is Lean `String`; optional values are `Option`.
- A TS function whose only behaviour is `throw` is modelled as returning
  `Except` with the corresponding error.
-/

namespace Feather

/-- Byte strings, one natural per byte. -/
abbrev Bytes := List Nat

/-! Crypto layer: RawKey (src/key/RawKey.ts). -/

/-- Result shape of secp256k1.ecdsaSign: a 64-byte compact signature plus a
recovery id. -/
structure SigResult where
  signature : Bytes
  recid : Nat
deriving DecidableEq

/-- The external crypto libraries used by RawKey.ts, as an abstract bundle:
SHA256.hash (jscrypto), keccak256, secp256k1.publicKeyCreate and
secp256k1.ecdsaSign.  `sig_len` records the secp256k1 contract that compact
signatures are exactly 64 bytes.  secp256k1.ecdsaSign is deterministic
(RFC6979 nonces, no randomness input), which the embedding reflects by it
being a function of digest and private key only. -/
structure CryptoPrims where
  sha256 : Bytes → Bytes
  keccak256 : Bytes → Bytes
  publicKeyCreate : Bytes → Bytes
  ecdsaSignRaw : Bytes → Bytes → SigResult
  sig_len : ∀ d k, (ecdsaSignRaw d k).signature.length = 64

/-- RawKey state: the raw private key and the `isInjective` constructor flag
(TS optional boolean; absent/undefined behaves as false, so it is a Bool).
The flag is fixed at construction and never mutated. -/
structure RawKey where
  privateKey : Bytes
  isInjective : Bool
deriving DecidableEq

/-- RawKey's public key, derived once at construction via
secp256k1.publicKeyCreate(privateKey, true). -/
def RawKey.publicKeyBytes (prims : CryptoPrims) (k : RawKey) : Bytes :=
  prims.publicKeyCreate k.privateKey

/-- RawKey.ecdsaSign: hash the payload with SHA-256 (the hex-string
round-trip in the source is the identity on the digest bytes), then
secp256k1.ecdsaSign(digest, privateKey). -/
def RawKey.ecdsaSign (prims : CryptoPrims) (k : RawKey) (payload : Bytes) : SigResult :=
  prims.ecdsaSignRaw (prims.sha256 payload) k.privateKey

/-- RawKey.etherSign: hash the payload with keccak256, then
secp256k1.ecdsaSign(digest, privateKey). -/
def RawKey.etherSign (prims : CryptoPrims) (k : RawKey) (payload : Bytes) : SigResult :=
  prims.ecdsaSignRaw (prims.keccak256 payload) k.privateKey

/-- RawKey.sign: picks etherSign when isInjective, ecdsaSign otherwise, and
returns only the `signature` component of the result (the recovery id is
dropped by the destructuring `const { signature } = ...`). -/
def RawKey.sign (prims : CryptoPrims) (k : RawKey) (payload : Bytes) : Bytes :=
  (if k.isInjective then k.etherSign prims payload else k.ecdsaSign prims payload).signature

/-! Message codec layer. -/

/-- The google.protobuf Any envelope: a type URL plus opaque value bytes. -/
structure AnyMsg where
  typeUrl : String
  value : Bytes
deriving DecidableEq

/-- ts-proto Any.fromPartial applied to a fully populated Any: both fields
are present, so each `?? default` fill is the identity. -/
def AnyMsg.fromFull (a : AnyMsg) : AnyMsg :=
  { typeUrl := a.typeUrl, value := a.value }

/-- In-memory MsgStoreCode (src/core/jax/msgs/MsgStoreCode.ts): creator,
admin, contract source code, stringified init params. -/
structure MsgStoreCode where
  creator : String
  admin : String
  code : String
  params : String
deriving DecidableEq

/-- The generated MsgStoreCode protobuf message object (terra.proto
jax/tx): the same four string fields. -/
structure MsgStoreCodeProto where
  creator : String
  admin : String
  code : String
  params : String
deriving DecidableEq

/-- Value part of the MsgStoreCode Amino shape; AminoV1 and AminoV2 in the
source declare the identical field list, so one structure covers both
generations. -/
structure StoreCodeAminoValue where
  creator : String
  admin : String
  code : String
  params : String
deriving DecidableEq

/-- MsgStoreCode Amino shape: tagged envelope with nested value. -/
structure MsgStoreCodeAmino where
  type : String
  value : StoreCodeAminoValue
deriving DecidableEq

/-- MsgStoreCode Data shape: flat object with the `@type` discriminator
(field `atType` renders the JSON key "@type"); DataV1 and DataV2 declare
the identical field list. -/
structure MsgStoreCodeData where
  atType : String
  creator : String
  admin : String
  code : String
  params : String
deriving DecidableEq

/-- MsgStoreCode.fromAmino: destructures data.value as the V2 generation
(a type cast only; no runtime inspection) and rebuilds the message. -/
def MsgStoreCode.fromAmino (d : MsgStoreCodeAmino) : MsgStoreCode :=
  ⟨d.value.creator, d.value.admin, d.value.code, d.value.params⟩

/-- MsgStoreCode.toAmino: emits the tagged envelope with the constant type
tag and the four fields under `value`. -/
def MsgStoreCode.toAmino (m : MsgStoreCode) : MsgStoreCodeAmino :=
  ⟨"jax/MsgStoreCode", ⟨m.creator, m.admin, m.code, m.params⟩⟩

/-- MsgStoreCode.fromData: destructures the payload as the V2 generation
(a type cast only; no runtime inspection). -/
def MsgStoreCode.fromData (d : MsgStoreCodeData) : MsgStoreCode :=
  ⟨d.creator, d.admin, d.code, d.params⟩

/-- MsgStoreCode.toData: flat object with the constant `@type` and the four
fields. -/
def MsgStoreCode.toData (m : MsgStoreCode) : MsgStoreCodeData :=
  ⟨"/jax.MsgStoreCode", m.creator, m.admin, m.code, m.params⟩

/-- MsgStoreCode.fromProto: reads the four fields off the protobuf
object. -/
def MsgStoreCode.fromProto (p : MsgStoreCodeProto) : MsgStoreCode :=
  ⟨p.creator, p.admin, p.code, p.params⟩

/-- MsgStoreCode.toProto: MsgStoreCode_pb.fromPartial with all four string
fields supplied, so each `?? ''` fill is the identity. -/
def MsgStoreCode.toProto (m : MsgStoreCode) : MsgStoreCodeProto :=
  ⟨m.creator, m.admin, m.code, m.params⟩

/-- In-memory MsgUpdateClient: client id, optional packed client message,
signer address. -/
structure MsgUpdateClient where
  client_id : String
  clientMessage : Option AnyMsg
  signer : String
deriving DecidableEq

/-- The generated MsgUpdateClient protobuf message object (terra.proto
ibc/core/client/v1/tx). -/
structure MsgUpdateClientProto where
  clientId : String
  clientMessage : Option AnyMsg
  signer : String
deriving DecidableEq

/-- MsgUpdateClient Data shape: `@type` discriminator plus the three
fields. -/
structure MsgUpdateClientData where
  atType : String
  client_id : String
  clientMessage : Option AnyMsg
  signer : String
deriving DecidableEq

/-- Error raised by intentionally unimplemented conversions; the source
throws `new Error('Amino not supported')`, which the spec's taxonomy calls
UnsupportedOperationError. -/
inductive MsgError
  | unsupported (message : String)
deriving DecidableEq

/-- MsgUpdateClient.fromAmino: the parameter has TS type `any` (hence the
type-polymorphic input) and the body unconditionally throws
'Amino not supported'. -/
def MsgUpdateClient.fromAmino {α : Type} (input : α) : Except MsgError MsgUpdateClient :=
  let _ := input
  .error (.unsupported "Amino not supported")

/-- MsgUpdateClient.toAmino: unconditionally throws 'Amino not supported';
no value of any shape is ever produced. -/
def MsgUpdateClient.toAmino (m : MsgUpdateClient) : Except MsgError Unit :=
  let _ := m
  .error (.unsupported "Amino not supported")

/-- MsgUpdateClient.fromData: reads the three fields; the `@type`
discriminator is ignored. -/
def MsgUpdateClient.fromData (d : MsgUpdateClientData) : MsgUpdateClient :=
  ⟨d.client_id, d.clientMessage, d.signer⟩

/-- MsgUpdateClient.toData: constant `@type` plus the three fields. -/
def MsgUpdateClient.toData (m : MsgUpdateClient) : MsgUpdateClientData :=
  ⟨"/ibc.core.client.v1.MsgUpdateClient", m.client_id, m.clientMessage, m.signer⟩

/-- MsgUpdateClient.fromProto: reads clientId, clientMessage, signer off
the protobuf object. -/
def MsgUpdateClient.fromProto (p : MsgUpdateClientProto) : MsgUpdateClient :=
  ⟨p.clientId, p.clientMessage, p.signer⟩

/-- MsgUpdateClient.toProto: MsgUpdateClient_pb.fromPartial; the string
fields are always supplied, and a present clientMessage goes through
Any.fromPartial (identity on a fully populated Any). -/
def MsgUpdateClient.toProto (m : MsgUpdateClient) : MsgUpdateClientProto :=
  ⟨m.client_id, m.clientMessage.map AnyMsg.fromFull, m.signer⟩

/-- Failure raised by the external protobuf decoder on malformed bytes. -/
structure DecodeFailure where
  message : String
deriving DecidableEq

/-- Errors observable from unpackAny.  The source only ever propagates the
decoder's failure; the `typeMismatch` constructor exists so that the spec's
TypeMismatchError can be talked about at all. -/
inductive UnpackError
  | decodeFailed (e : DecodeFailure)
  | typeMismatch (expected declared : String)
deriving DecidableEq

/-- Boolean test for the TypeMismatchError outcome of an unpack. -/
def isTypeMismatch {α : Type} : Except UnpackError α → Bool
  | .error (.typeMismatch _ _) => true
  | _ => false

/-- The external terra.proto binary codec for the two message variants, as
an abstract bundle of encode/decode functions. -/
structure ProtoLib where
  encodeStoreCode : MsgStoreCodeProto → Bytes
  decodeStoreCode : Bytes → Except DecodeFailure MsgStoreCodeProto
  encodeUpdateClient : MsgUpdateClientProto → Bytes
  decodeUpdateClient : Bytes → Except DecodeFailure MsgUpdateClientProto

/-- MsgStoreCode.packAny: Any.fromPartial with the constant type URL
'/jax.MsgStoreCode' and value = MsgStoreCode_pb.encode(toProto()). -/
def MsgStoreCode.packAny (lib : ProtoLib) (m : MsgStoreCode) : AnyMsg :=
  ⟨"/jax.MsgStoreCode", lib.encodeStoreCode m.toProto⟩

/-- MsgStoreCode.unpackAny: fromProto(MsgStoreCode_pb.decode(msgAny.value));
the envelope's typeUrl is never read, and the only failure that can arise is
the decoder's own. -/
def MsgStoreCode.unpackAny (lib : ProtoLib) (msgAny : AnyMsg) : Except UnpackError MsgStoreCode :=
  match lib.decodeStoreCode msgAny.value with
  | .ok p => .ok (MsgStoreCode.fromProto p)
  | .error e => .error (.decodeFailed e)

/-- MsgUpdateClient.packAny: Any.fromPartial with the constant type URL
'/ibc.core.client.v1.MsgUpdateClient' and value =
MsgUpdateClient_pb.encode(toProto()). -/
def MsgUpdateClient.packAny (lib : ProtoLib) (m : MsgUpdateClient) : AnyMsg :=
  ⟨"/ibc.core.client.v1.MsgUpdateClient", lib.encodeUpdateClient m.toProto⟩

/-- MsgUpdateClient.unpackAny: fromProto(MsgUpdateClient_pb.decode(
msgAny.value)); the envelope's typeUrl is never read. -/
def MsgUpdateClient.unpackAny (lib : ProtoLib) (msgAny : AnyMsg) : Except UnpackError MsgUpdateClient :=
  match lib.decodeUpdateClient msgAny.value with
  | .ok p => .ok (MsgUpdateClient.fromProto p)
  | .error e => .error (.decodeFailed e)

-- Equality of codec results is decidable, enabling concrete evaluation of
-- unpack outcomes.
deriving instance DecidableEq for Except

/-- A copy of a crypto bundle whose secp256k1 signer reports different
recovery ids but identical signature bytes; used to state that RawKey.sign
is insensitive to the recovery id. -/
def CryptoPrims.withRecid (prims : CryptoPrims) (f : Bytes → Bytes → Nat) : CryptoPrims where
  sha256 := prims.sha256
  keccak256 := prims.keccak256
  publicKeyCreate := prims.publicKeyCreate
  ecdsaSignRaw := fun d k => ⟨(prims.ecdsaSignRaw d k).signature, f d k⟩
  sig_len := fun d k => prims.sig_len d k

/-! Loose runtime model for the fromAmino / fromData entry points.  At the
JS runtime the TS casts `data as AminoV2` / `data as DataV2` check nothing:
whatever object arrives has the four field positions read off it, each
yielding undefined when absent.  Absent fields are `none`. -/

/-- Runtime view of the `value` object of an Amino payload: each expected
field may be absent. -/
structure StoreCodeFieldsJS where
  creator : Option String
  admin : Option String
  code : Option String
  params : Option String
deriving DecidableEq

/-- Runtime view of an arbitrary Amino payload handed to
MsgStoreCode.fromAmino: any type tag, any subset of fields present. -/
structure AminoDocJS where
  type : String
  value : StoreCodeFieldsJS
deriving DecidableEq

/-- Runtime view of an arbitrary Data payload handed to
MsgStoreCode.fromData. -/
structure DataDocJS where
  atType : String
  creator : Option String
  admin : Option String
  code : Option String
  params : Option String
deriving DecidableEq

/-- A MsgStoreCode as actually constructed at runtime from a loose payload:
fields typed string in TS but possibly undefined. -/
structure MsgStoreCodeJS where
  creator : Option String
  admin : Option String
  code : Option String
  params : Option String
deriving DecidableEq

/-- MsgStoreCode.fromAmino at the JS runtime: destructure data.value and
construct, whatever the payload's shape; there is no error outcome in this
code path. -/
def MsgStoreCode.fromAminoJS (d : AminoDocJS) : MsgStoreCodeJS :=
  ⟨d.value.creator, d.value.admin, d.value.code, d.value.params⟩

/-- MsgStoreCode.fromData at the JS runtime: destructure the payload and
construct, whatever its shape; there is no error outcome in this code
path. -/
def MsgStoreCode.fromDataJS (d : DataDocJS) : MsgStoreCodeJS :=
  ⟨d.creator, d.admin, d.code, d.params⟩

/-! Concrete instances used by witnesses and counterexamples: a crypto
bundle and a small self-delimiting binary codec satisfying the external
libraries' contracts at the evaluated points. -/

/-- Concrete crypto bundle for witnesses: distinct digest tags and a
64-byte signature derived from digest and key. -/
def toyPrims : CryptoPrims where
  sha256 := fun b => 1 :: b
  keccak256 := fun b => 2 :: b
  publicKeyCreate := fun b => 3 :: b
  ecdsaSignRaw := fun d k => ⟨List.replicate 64 ((d.sum + k.sum) % 256), 1⟩
  sig_len := fun _ _ => List.length_replicate 64 _

/-- Length-prefixed string encoding for the concrete codec. -/
def encStr (s : String) : Bytes :=
  s.length :: s.toList.map Char.toNat

/-- Reads one length-prefixed string, returning it and the remaining
bytes. -/
def decStr (l : Bytes) : Option (String × Bytes) :=
  match l with
  | [] => none
  | n :: rest =>
    if n ≤ rest.length then
      some (String.mk ((rest.take n).map Char.ofNat), rest.drop n)
    else none

/-- Reads one length-prefixed byte string. -/
def decRaw (l : Bytes) : Option (Bytes × Bytes) :=
  match l with
  | [] => none
  | n :: rest =>
    if n ≤ rest.length then some (rest.take n, rest.drop n) else none

/-- Encodes an optional Any: presence flag, then type URL and value. -/
def encOptAny : Option AnyMsg → Bytes
  | none => [0]
  | some a => 1 :: (encStr a.typeUrl ++ (a.value.length :: a.value))

/-- Decodes an optional Any written by `encOptAny`. -/
def decOptAny (l : Bytes) : Option (Option AnyMsg × Bytes) :=
  match l with
  | 0 :: rest => some (none, rest)
  | 1 :: rest => do
    let (u, rest) ← decStr rest
    let (v, rest) ← decRaw rest
    pure (some ⟨u, v⟩, rest)
  | _ => none

/-- Concrete MsgStoreCode decoder: four length-prefixed strings. -/
def toyDecodeStoreCode (l : Bytes) : Option MsgStoreCodeProto := do
  let (creator, l) ← decStr l
  let (admin, l) ← decStr l
  let (code, l) ← decStr l
  let (params, _) ← decStr l
  pure ⟨creator, admin, code, params⟩

/-- Concrete MsgUpdateClient decoder: clientId, optional Any, signer. -/
def toyDecodeUpdateClient (l : Bytes) : Option MsgUpdateClientProto := do
  let (clientId, l) ← decStr l
  let (clientMessage, l) ← decOptAny l
  let (signer, _) ← decStr l
  pure ⟨clientId, clientMessage, signer⟩

/-- Concrete protobuf codec bundle used by witnesses: an executable,
injective-at-the-evaluated-points serialization standing in for the
external generated codec. -/
def toyLib : ProtoLib where
  encodeStoreCode := fun p =>
    encStr p.creator ++ encStr p.admin ++ encStr p.code ++ encStr p.params
  decodeStoreCode := fun l =>
    (toyDecodeStoreCode l).elim (.error ⟨"malformed bytes"⟩) .ok
  encodeUpdateClient := fun p =>
    encStr p.clientId ++ encOptAny p.clientMessage ++ encStr p.signer
  decodeUpdateClient := fun l =>
    (toyDecodeUpdateClient l).elim (.error ⟨"malformed bytes"⟩) .ok

/-! Concrete values used by individual claims' witnesses and
counterexamples. -/

/-- MsgUpdateClient value whose envelope is handed to the wrong decoder. -/
def mismatchMsg : MsgUpdateClient := ⟨"07-t", some ⟨"/x", [9]⟩, "s1"⟩

/-- Envelope produced by MsgUpdateClient.packAny, later unpacked by
MsgStoreCode's decoder. -/
def mismatchEnv : AnyMsg := MsgUpdateClient.packAny toyLib mismatchMsg

/-- Concrete MsgStoreCode for the pack/unpack round-trip witness. -/
def packMsgStore : MsgStoreCode := ⟨"acc1w", "acc2w", "codew", "pw"⟩

/-- Concrete MsgUpdateClient for the pack/unpack round-trip witness. -/
def packMsgUpd : MsgUpdateClient := ⟨"07-w", some ⟨"/ibc.Header", [4, 2]⟩, "sw"⟩

/-- The spec's concrete MsgStoreCode scenario. -/
def scenarioMsg : MsgStoreCode := ⟨"acc1...", "acc1...", "contract-source", "\x7b\x7d"⟩

/-- An Amino payload structurally matching neither MsgStoreCode
generation: foreign type tag, none of the expected fields present. -/
def unknownAmino : AminoDocJS := ⟨"cosmos/MsgUnknown", ⟨none, none, none, none⟩⟩

/-- A Data payload structurally matching neither MsgStoreCode
generation. -/
def unknownData : DataDocJS := ⟨"/cosmos.bank.v1beta1.MsgSend", none, none, none, none⟩

/-! Theorems. -/

/-- MsgUpdateClient's Proto round-trip: fromPartial's Any normalization is
the identity on a fully populated clientMessage. -/
theorem updateClient_proto_roundtrip (u : MsgUpdateClient) :
    MsgUpdateClient.fromProto u.toProto = u := by
  cases u with
  | mk c msg s => cases msg <;> rfl

/-- C1: for every MsgStoreCode value m and every shape X in Amino, Data,
Proto, and for every MsgUpdateClient value u and every shape X in Data,
Proto, decoding the encoding gives back an equal message:
fromX (toX m) = m under field-wise equality. -/
theorem C1_fromX_toX_roundtrip :
    (∀ m : MsgStoreCode, MsgStoreCode.fromAmino m.toAmino = m) ∧
    (∀ m : MsgStoreCode, MsgStoreCode.fromData m.toData = m) ∧
    (∀ m : MsgStoreCode, MsgStoreCode.fromProto m.toProto = m) ∧
    (∀ u : MsgUpdateClient, MsgUpdateClient.fromData u.toData = u) ∧
    (∀ u : MsgUpdateClient, MsgUpdateClient.fromProto u.toProto = u) :=
  ⟨fun _ => rfl, fun _ => rfl, fun _ => rfl, fun _ => rfl,
   fun u => updateClient_proto_roundtrip u⟩

/-- C2: RawKey.sign signs the SHA-256 digest for a Standard-family key
(isInjective false) and the Keccak-256 digest for an EvmStyle key
(isInjective true); the digest choice is a function of the construction
flag, the payload and the stored secret and of nothing else. -/
theorem C2_digest_fixed_by_chain_family (prims : CryptoPrims) (sk : Bytes) (inj : Bool) (p : Bytes) :
    RawKey.sign prims ⟨sk, inj⟩ p =
      (prims.ecdsaSignRaw (if inj then prims.keccak256 p else prims.sha256 p) sk).signature := by
  cases inj <;> rfl

/-- C3 counterexample: an envelope packed by MsgUpdateClient (its typeUrl
differs from MsgStoreCode's expected '/jax.MsgStoreCode') is unpacked by
MsgStoreCode.unpackAny without raising TypeMismatchError: the decoder is
applied to the bytes directly. -/
theorem C3_counterexample :
    mismatchEnv.typeUrl ≠ "/jax.MsgStoreCode" ∧
    isTypeMismatch (MsgStoreCode.unpackAny toyLib mismatchEnv) = false :=
  ⟨by decide, by decide⟩

/-- C3 amended: unpackAny performs no typeUrl comparison at all: its result
is a function of the envelope's value bytes only, every mismatched unpack
proceeds straight to byte decoding, and no unpack ever yields
TypeMismatchError. -/
theorem C3_unpackAny_ignores_typeUrl :
    (∀ (lib : ProtoLib) (v : Bytes) (u1 u2 : String),
      MsgStoreCode.unpackAny lib ⟨u1, v⟩ = MsgStoreCode.unpackAny lib ⟨u2, v⟩) ∧
    (∀ (lib : ProtoLib) (a : AnyMsg), isTypeMismatch (MsgStoreCode.unpackAny lib a) = false) ∧
    (∀ (lib : ProtoLib) (v : Bytes) (u1 u2 : String),
      MsgUpdateClient.unpackAny lib ⟨u1, v⟩ = MsgUpdateClient.unpackAny lib ⟨u2, v⟩) ∧
    (∀ (lib : ProtoLib) (a : AnyMsg), isTypeMismatch (MsgUpdateClient.unpackAny lib a) = false) := by
  refine ⟨fun lib v u1 u2 => rfl, fun lib a => ?_, fun lib v u1 u2 => rfl, fun lib a => ?_⟩
  · unfold MsgStoreCode.unpackAny
    cases lib.decodeStoreCode a.value <;> rfl
  · unfold MsgUpdateClient.unpackAny
    cases lib.decodeUpdateClient a.value <;> rfl

/-- C4: provided the external codec decodes what it encoded (its documented
contract), unpackAny inverts packAny for both variants, the packed typeUrl
is the variant's constant, and the packed value is the Proto encoding of
the message. -/
theorem C4_packAny_unpackAny (lib : ProtoLib) (m : MsgStoreCode) (u : MsgUpdateClient)
    (hm : lib.decodeStoreCode (lib.encodeStoreCode m.toProto) = .ok m.toProto)
    (hu : lib.decodeUpdateClient (lib.encodeUpdateClient u.toProto) = .ok u.toProto) :
    MsgStoreCode.unpackAny lib (MsgStoreCode.packAny lib m) = .ok m ∧
    (MsgStoreCode.packAny lib m).typeUrl = "/jax.MsgStoreCode" ∧
    (MsgStoreCode.packAny lib m).value = lib.encodeStoreCode m.toProto ∧
    MsgUpdateClient.unpackAny lib (MsgUpdateClient.packAny lib u) = .ok u ∧
    (MsgUpdateClient.packAny lib u).typeUrl = "/ibc.core.client.v1.MsgUpdateClient" ∧
    (MsgUpdateClient.packAny lib u).value = lib.encodeUpdateClient u.toProto := by
  refine ⟨?_, rfl, rfl, ?_, rfl, rfl⟩
  · unfold MsgStoreCode.unpackAny MsgStoreCode.packAny
    simp only [hm]
    rfl
  · unfold MsgUpdateClient.unpackAny MsgUpdateClient.packAny
    simp only [hu, updateClient_proto_roundtrip]

/-- C4 witness: the round-trip at a concrete codec and concrete messages of
both variants. -/
theorem C4_packAny_unpackAny_witness :
    MsgStoreCode.unpackAny toyLib (MsgStoreCode.packAny toyLib packMsgStore) = .ok packMsgStore ∧
    (MsgStoreCode.packAny toyLib packMsgStore).typeUrl = "/jax.MsgStoreCode" ∧
    (MsgStoreCode.packAny toyLib packMsgStore).value = toyLib.encodeStoreCode packMsgStore.toProto ∧
    MsgUpdateClient.unpackAny toyLib (MsgUpdateClient.packAny toyLib packMsgUpd) = .ok packMsgUpd ∧
    (MsgUpdateClient.packAny toyLib packMsgUpd).typeUrl = "/ibc.core.client.v1.MsgUpdateClient" ∧
    (MsgUpdateClient.packAny toyLib packMsgUpd).value = toyLib.encodeUpdateClient packMsgUpd.toProto :=
  C4_packAny_unpackAny toyLib packMsgStore packMsgUpd (by decide) (by decide)

/-- C5: the spec's concrete MsgStoreCode scenario: Proto encode/decode
reproduces the identical four fields, and toData is exactly the flat
object with the '@type' discriminator '/jax.MsgStoreCode'. -/
theorem C5_concrete_scenario :
    MsgStoreCode.fromProto (MsgStoreCode.toProto scenarioMsg) = scenarioMsg ∧
    MsgStoreCode.toData scenarioMsg =
      ⟨"/jax.MsgStoreCode", "acc1...", "acc1...", "contract-source", "\x7b\x7d"⟩ :=
  ⟨rfl, rfl⟩

/-- C6: Standard-family signing is deterministic: the signature is a
function of the payload and the stored secret alone, so two Standard keys
holding the same secret produce byte-identical signatures on the same
payload (the underlying secp256k1 signer takes only digest and key, its
nonce being RFC6979-deterministic). -/
theorem C6_deterministic_standard_sign (prims : CryptoPrims) (k1 k2 : RawKey) (p : Bytes)
    (h1 : k1.isInjective = false) (h2 : k2.isInjective = false)
    (hk : k1.privateKey = k2.privateKey) :
    RawKey.sign prims k1 p = RawKey.sign prims k2 p := by
  simp [RawKey.sign, RawKey.ecdsaSign, RawKey.etherSign, h1, h2, hk]

/-- C6 witness: two distinct Standard-key terms holding equal secrets sign
a concrete payload identically. -/
theorem C6_deterministic_standard_sign_witness :
    RawKey.sign toyPrims ⟨[1, 2, 3], false⟩ [5] =
      RawKey.sign toyPrims ⟨[1] ++ [2, 3], false⟩ [5] :=
  C6_deterministic_standard_sign toyPrims ⟨[1, 2, 3], false⟩ ⟨[1] ++ [2, 3], false⟩ [5]
    (by decide) (by decide) (by decide)

/-- C7: MsgUpdateClient's Amino arrows are intentionally unimplemented:
fromAmino fails with UnsupportedOperationError for every input of every
type, toAmino fails likewise for every message and never returns a value,
while the Data and Proto arrows round-trip on the same variant. -/
theorem C7_updateclient_amino_unsupported :
    (∀ (α : Type) (x : α),
      MsgUpdateClient.fromAmino x = .error (.unsupported "Amino not supported")) ∧
    (∀ u : MsgUpdateClient, u.toAmino = .error (.unsupported "Amino not supported")) ∧
    (∀ u : MsgUpdateClient, MsgUpdateClient.fromData u.toData = u) ∧
    (∀ u : MsgUpdateClient, MsgUpdateClient.fromProto u.toProto = u) :=
  ⟨fun _ _ => rfl, fun _ => rfl, fun _ => rfl, fun u => updateClient_proto_roundtrip u⟩

/-- C8 counterexample: a payload structurally matching neither MsgStoreCode
generation is not rejected: fromAmino and fromData construct a message
whose four fields are all absent, and their code paths have no error
outcome at all, so no SchemaAmbiguityError is ever raised. -/
theorem C8_counterexample :
    MsgStoreCode.fromAminoJS unknownAmino = ⟨none, none, none, none⟩ ∧
    MsgStoreCode.fromDataJS unknownData = ⟨none, none, none, none⟩ :=
  ⟨rfl, rfl⟩

/-- C8 amended: fromAmino and fromData accept both generations (which
declare identical field lists) and normalize them to the same in-memory
message, but they perform no structural inspection: the type tag is never
examined, the four field positions are read off any payload whatever its
shape, and no payload is ever rejected with SchemaAmbiguityError. -/
theorem C8_no_structural_inspection :
    (∀ d : AminoDocJS,
      MsgStoreCode.fromAminoJS d = ⟨d.value.creator, d.value.admin, d.value.code, d.value.params⟩) ∧
    (∀ (t1 t2 : String) (v : StoreCodeFieldsJS),
      MsgStoreCode.fromAminoJS ⟨t1, v⟩ = MsgStoreCode.fromAminoJS ⟨t2, v⟩) ∧
    (∀ d : DataDocJS,
      MsgStoreCode.fromDataJS d = ⟨d.creator, d.admin, d.code, d.params⟩) ∧
    (∀ a : MsgStoreCodeAmino,
      MsgStoreCode.fromAmino a = ⟨a.value.creator, a.value.admin, a.value.code, a.value.params⟩) ∧
    (∀ d : MsgStoreCodeData,
      MsgStoreCode.fromData d = ⟨d.creator, d.admin, d.code, d.params⟩) :=
  ⟨fun _ => rfl, fun _ _ _ => rfl, fun _ => rfl, fun _ => rfl, fun _ => rfl⟩

/-- C10: RawKey.sign returns only the 64-byte compact signature for both
chain families: it is insensitive to the recovery id reported by the
underlying signer, and its result has length 64 by the secp256k1 compact
signature contract. -/
theorem C10_recid_discarded (prims : CryptoPrims) (f : Bytes → Bytes → Nat) (k : RawKey) (p : Bytes) :
    RawKey.sign (prims.withRecid f) k p = RawKey.sign prims k p ∧
    (RawKey.sign prims k p).length = 64 := by
  constructor
  · unfold RawKey.sign RawKey.etherSign RawKey.ecdsaSign CryptoPrims.withRecid
    cases k.isInjective <;> rfl
  · unfold RawKey.sign RawKey.etherSign RawKey.ecdsaSign
    cases k.isInjective <;> simp [prims.sig_len]

end Feather
